import Mathlib

/-!
Shallow embedding of the core pipeline of the Docling RAG system
(`rag-production`): document processing, chunking, vector-store management,
query-response assembly in `RAGPipeline.query`, and the `/query` HTTP
endpoint.  External collaborators (the Docling parser and chunker, the
embedding model, ChromaDB, the LLM) are abstracted as function parameters;
everything else is translated from the Python source.  Python's exception
channel is modelled with `Except`: a function whose body contains no `raise`
always returns `Except.ok`.  Relevance scores are modelled as rationals.
-/

/-- Flat metadata dictionaries (string keys to string values), e.g. the
`origin` dict produced by `chunk.meta.origin.model_dump()`. -/
abbrev Meta := List (String × String)

/-- The `metadata` dict built for each chunk in
`ChunkingStrategy.chunk_document`: `doc_items`, `headings`, `origin`. -/
structure ChunkMetadata where
  doc_items : List String
  headings : List String
  origin : Meta
  deriving DecidableEq, Repr

/-- One chunk dict as produced by `ChunkingStrategy.chunk_document`:
`{"text": ..., "metadata": {...}}`. -/
structure ChunkData where
  text : String
  metadata : ChunkMetadata
  deriving DecidableEq, Repr

/-- A LangChain `Document` as stored in / returned by the vector store:
`page_content` plus `metadata`. -/
structure LCDoc where
  page_content : String
  metadata : ChunkMetadata
  deriving DecidableEq, Repr

/-- One entry of `response["sources"]` assembled by `RAGPipeline.query`. -/
structure SourceInfo where
  source_number : Nat
  text : String
  metadata : ChunkMetadata
  relevance_score : Rat
  deriving DecidableEq, Repr

/-- The `response["metrics"]` dict assembled by `RAGPipeline.query`. -/
structure QueryMetrics where
  retrieved_chunks : Nat
  average_relevance : Rat
  answer_length : Nat
  deriving DecidableEq, Repr

/-- The response dict returned by `RAGPipeline.query`. -/
structure QueryResp where
  question : String
  answer : String
  sources : List SourceInfo
  metrics : QueryMetrics
  deriving DecidableEq, Repr

namespace RAGPipeline

/-- `RAGPipeline._format_docs`: `"\n\n".join(doc.page_content for doc in docs)`
— the context string supplied to the prompt, joining the retrieved documents'
texts with a blank line between consecutive texts. -/
def formatDocs (docs : List LCDoc) : String :=
  String.intercalate "\n\n" (docs.map LCDoc.page_content)

/-- One `source_info` dict of the
`for i, (doc, score) in enumerate(source_docs_with_scores, 1)` loop in
`RAGPipeline.query`: the preview `text` is `doc.page_content[:300] + "..."`
when the content is longer than 300 characters, else the full content. -/
def mkSourceInfo (i : Nat) (doc : LCDoc) (score : Rat) : SourceInfo :=
  { source_number := i,
    text := if doc.page_content.length > 300
      then doc.page_content.take 300 ++ "..."
      else doc.page_content,
    metadata := doc.metadata,
    relevance_score := score }

/-- The `enumerate(source_docs_with_scores, 1)` loop of `RAGPipeline.query`
building `response["sources"]`, numbering from `i`. -/
def buildSources (i : Nat) : List (LCDoc × Rat) → List SourceInfo
  | [] => []
  | (doc, score) :: rest => mkSourceInfo i doc score :: buildSources (i + 1) rest

/-- Response assembly of `RAGPipeline.query`: given the question, the
generated answer and the scored retrieval results
(`source_docs_with_scores`), build the response dict.  `average_relevance`
is `sum(similarity_scores) / len(similarity_scores) if similarity_scores
else 0`. -/
def buildResponse (question answer : String) (dws : List (LCDoc × Rat)) : QueryResp :=
  let source_docs := dws.map Prod.fst
  let similarity_scores := dws.map Prod.snd
  let avg_relevance : Rat :=
    if similarity_scores.isEmpty then 0
    else similarity_scores.sum / (similarity_scores.length : Rat)
  { question := question,
    answer := answer,
    sources := buildSources 1 dws,
    metrics :=
      { retrieved_chunks := source_docs.length,
        average_relevance := avg_relevance,
        answer_length := answer.length } }

/-- `RAGPipeline.query`: retrieves via
`vectorstore.similarity_search_with_relevance_scores(question, k=10)` —
`k` is hard-coded to 10, the method takes no `k` argument — generates the
answer via the RAG chain (abstracted as `genAnswer`), and assembles the
response.  `search` abstracts the vector store's scored similarity search. -/
def query (search : String → Nat → List (LCDoc × Rat))
    (genAnswer : String → String) (question : String) : QueryResp :=
  buildResponse question (genAnswer question) (search question 10)

end RAGPipeline

namespace Api

/-- Pydantic `QueryRequest` of `api.py`: `question: str` and
`top_k: Optional[int] = 10` — omitted `top_k` defaults to 10. -/
structure QueryRequest where
  question : String
  top_k : Option Int := some 10
  deriving DecidableEq, Repr

/-- Pydantic `QueryResponse` returned by the `POST /query` endpoint. -/
structure APIQueryResponse where
  question : String
  answer : String
  sources : List SourceInfo
  metrics : QueryMetrics
  deriving DecidableEq, Repr

/-- The successful path of the `query_documents` endpoint (`api.py`):
calls `rag.query(request.question, verbose=False)` — `request.top_k` is
never passed on — and returns the pipeline result with
`sources=result["sources"][:5]` and the metrics unchanged.
(`DoclingRAGSystem.query` forwards the question unchanged to
`RAGPipeline.query`.) -/
def queryDocuments (search : String → Nat → List (LCDoc × Rat))
    (genAnswer : String → String) (request : QueryRequest) : APIQueryResponse :=
  let result := RAGPipeline.query search genAnswer request.question
  { question := result.question,
    answer := result.answer,
    sources := result.sources.take 5,
    metrics := result.metrics }

end Api

namespace ChunkingStrategy

/-- Constructor arguments of the `HierarchicalChunker` built in
`ChunkingStrategy.__init__`. -/
structure HierarchicalChunkerConfig where
  tokenizer : String
  max_tokens : Nat
  include_metadata : Bool
  deriving DecidableEq, Repr

/-- `ChunkingStrategy.__init__(chunk_size=512, chunk_overlap=128)`: builds
`HierarchicalChunker(tokenizer="sentence-transformers/all-MiniLM-L6-v2",
max_tokens=chunk_size, include_metadata=True)`.  The `chunk_overlap`
argument appears nowhere in the body. -/
def init (chunk_size : Nat) (chunk_overlap : Nat) : HierarchicalChunkerConfig :=
  { tokenizer := "sentence-transformers/all-MiniLM-L6-v2",
    max_tokens := chunk_size,
    include_metadata := true }

/-- A chunk as yielded by the external `HierarchicalChunker`: `text` plus a
`meta` object whose `doc_items`, `headings` and `origin` attributes may be
absent (the source guards each with `hasattr`), modelled with `Option`. -/
structure RawChunk where
  text : String
  doc_items : Option (List String)
  headings : Option (List String)
  origin : Option Meta
  deriving DecidableEq, Repr

/-- The `chunk_data` dict built for one chunk inside the loop of
`ChunkingStrategy.chunk_document`: each absent attribute falls back to `[]`
(resp. the empty dict for `origin`). -/
def chunkDataOf (chunk : RawChunk) : ChunkData :=
  { text := chunk.text,
    metadata :=
      { doc_items := chunk.doc_items.getD [],
        headings := chunk.headings.getD [],
        origin := chunk.origin.getD [] } }

/-- `ChunkingStrategy.chunk_document`: iterates the chunker's output
(`self.chunker.chunk(document)`, abstracted as the input list), appends one
`chunk_data` per chunk, and returns the accumulated list.  The body contains
no `raise` statement, so the `Except` exception channel is always `ok`. -/
def chunk_document (chunkerOutput : List RawChunk) : Except String (List ChunkData) :=
  Except.ok (chunkerOutput.map chunkDataOf)

end ChunkingStrategy

namespace DocumentProcessor

/-- `DocumentProcessor.process_documents`: a plain `for` loop calling
`process_document` on each path and appending the result — there is no
per-file `try`/`except`, so an exception raised for one file (modelled by
`parse` returning `Except.error`) propagates and aborts the whole loop. -/
def process_documents {Doc : Type} (parse : String → Except String Doc) :
    List String → Except String (List Doc)
  | [] => Except.ok []
  | f :: fs =>
    match parse f with
    | Except.error e => Except.error e
    | Except.ok d =>
      match process_documents parse fs with
      | Except.error e => Except.error e
      | Except.ok ds => Except.ok (d :: ds)

end DocumentProcessor

namespace DoclingRAGSystem

/-- The fixed allow-list of extensions used by the auto-discovery branch of
`DoclingRAGSystem.ingest_documents`. -/
def supported_extensions : List String :=
  [".pdf", ".docx", ".xlsx", ".pptx", ".ppt",
   ".md", ".html", ".htm", ".csv",
   ".png", ".jpg", ".jpeg", ".tiff", ".tif", ".bmp", ".webp"]

/-- The discovery loop of `ingest_documents`:
`for ext in supported_extensions: file_paths.extend(docs_folder.glob(...))`,
with each glob over pattern `"*" + ext` modelled as filtering the folder
listing for filenames whose character sequence ends with the extension. -/
def discoverFiles (listing : List String) : List String :=
  supported_extensions.foldl
    (fun acc ext => acc ++ listing.filter (fun f => ext.data.isSuffixOf f.data)) []

/-- How the `file_paths` resolution phase of `ingest_documents` ends. -/
inductive IngestOutcome where
  /-- `docs` folder missing: prints a message and returns early. -/
  | noDocsFolder : IngestOutcome
  /-- Discovery found no supported file: prints a message and returns early. -/
  | noDocumentsFound : IngestOutcome
  /-- Ingestion proceeds on these files. -/
  | proceeded : List String → IngestOutcome
  deriving DecidableEq, Repr

/-- The `file_paths` resolution of `DoclingRAGSystem.ingest_documents`
(main.py lines 32–66): explicit paths pass straight through; with
`file_paths=None` it auto-discovers, and when the folder is missing or
discovery yields nothing it prints an error message and `return`s — no
exception is raised, so the `Except` exception channel is always `ok`. -/
def resolveIngestFiles (file_paths : Option (List String))
    (docsFolderExists : Bool) (listing : List String) :
    Except String IngestOutcome :=
  match file_paths with
  | some fps => Except.ok (IngestOutcome.proceeded fps)
  | none =>
    if !docsFolderExists then Except.ok IngestOutcome.noDocsFolder
    else
      let fps := discoverFiles listing
      if fps.isEmpty then Except.ok IngestOutcome.noDocumentsFound
      else Except.ok (IngestOutcome.proceeded fps)

end DoclingRAGSystem

namespace VectorStore

/-- `VectorStore.create_vectorstore`: converts each chunk to
`Document(page_content=chunk["text"], metadata=chunk["metadata"])`, applies
the external `filter_complex_metadata` (abstracted as `filterMeta`), and
unconditionally calls `Chroma.from_documents`, overwriting
`self.vectorstore` whatever its current value (`current`).  The body
contains no state check and no `raise`, so the `Except` exception channel
is always `ok`; the result models the freshly built collection's contents. -/
def create_vectorstore (filterMeta : List LCDoc → List LCDoc)
    (current : Option (List LCDoc)) (chunks : List ChunkData) :
    Except String (List LCDoc) :=
  Except.ok (filterMeta (chunks.map (fun c => LCDoc.mk c.text c.metadata)))

end VectorStore

/-! Concrete sample inputs used to evaluate the embedded operations. -/

/-- The empty chunk metadata dict. -/
def emptyMeta : ChunkMetadata := { doc_items := [], headings := [], origin := [] }

/-- A short stored document (well under the 300-character preview bound). -/
def docA : LCDoc := { page_content := "The sky is blue.", metadata := emptyMeta }

/-- A second short stored document. -/
def docB : LCDoc := { page_content := "The grass is green.", metadata := emptyMeta }

/-- A stored document whose content is 350 characters, past the
300-character preview bound. -/
def docLong : LCDoc :=
  { page_content := String.mk (List.replicate 350 'x'), metadata := emptyMeta }

/-- A concrete scored similarity search over a store holding two chunks:
returns at most `k` of them, best first. -/
def searchStub (q : String) (k : Nat) : List (LCDoc × Rat) :=
  ([(docA, 1), (docB, 1/2)]).take k

/-- A concrete stand-in for the RAG chain's generated answer. -/
def genAnswerStub (q : String) : String := "stub answer"

/-- A concrete parser that fails (raises `ParseError`) exactly on
`bad.bin` and parses every other path. -/
def parseStub (f : String) : Except String String :=
  if f = "bad.bin" then Except.error "ParseError: bad.bin" else Except.ok f

/-- A concrete chunk dict. -/
def chunkA : ChunkData := { text := "alpha", metadata := emptyMeta }

/-- A concrete `/query` request supplying `top_k = 1`. -/
def req1 : Api.QueryRequest := { question := "What color is the sky?", top_k := some 1 }

/-! Helper lemmas about the embedded operations. -/

namespace RAGPipeline

/-- The sources loop emits one entry per scored document. -/
theorem buildSources_length (i : Nat) (dws : List (LCDoc × Rat)) :
    (buildSources i dws).length = dws.length := by
  induction dws generalizing i with
  | nil => rfl
  | cons dw rest ih =>
    obtain ⟨doc, score⟩ := dw
    simp [buildSources, ih]

/-- The sources loop stores exactly the retrieval scores, in order. -/
theorem buildSources_map_score (i : Nat) (dws : List (LCDoc × Rat)) :
    (buildSources i dws).map SourceInfo.relevance_score = dws.map Prod.snd := by
  induction dws generalizing i with
  | nil => rfl
  | cons dw rest ih =>
    obtain ⟨doc, score⟩ := dw
    simp [buildSources, mkSourceInfo, ih]

/-- Every emitted source comes from some scored document of the input. -/
theorem mem_buildSources {src : SourceInfo} {i : Nat} {dws : List (LCDoc × Rat)}
    (hsrc : src ∈ buildSources i dws) :
    ∃ dw ∈ dws, ∃ j, src = mkSourceInfo j dw.1 dw.2 := by
  induction dws generalizing i with
  | nil => cases hsrc
  | cons dw rest ih =>
    obtain ⟨doc, score⟩ := dw
    rcases List.mem_cons.mp hsrc with h | h
    · exact ⟨(doc, score), List.mem_cons_self _ _, i, h⟩
    · obtain ⟨dw, hdw, j, hj⟩ := ih h
      exact ⟨dw, List.mem_cons_of_mem _ hdw, j, hj⟩

/-- Pulling a prefix of the accumulator out of the intercalation loop. -/
theorem intercalate_go_append (a b s : String) (l : List String) :
    String.intercalate.go (a ++ b) s l = a ++ String.intercalate.go b s l := by
  induction l generalizing b with
  | nil => rfl
  | cons c l ih =>
    rw [show String.intercalate.go (a ++ b) s (c :: l) =
          String.intercalate.go (a ++ b ++ s ++ c) s l from rfl,
        show String.intercalate.go b s (c :: l) =
          String.intercalate.go (b ++ s ++ c) s l from rfl,
        show a ++ b ++ s ++ c = a ++ (b ++ s ++ c) by simp [String.append_assoc]]
    exact ih (b ++ s ++ c)

end RAGPipeline

/-! Claim theorems. -/

/-- C1: for every query, the `average_relevance` metric of the assembled
response equals the arithmetic mean of the relevance scores attached to the
retrieved sources, and equals 0 when the retrieval returned zero results. -/
theorem C1_average_relevance (q a : String) (dws : List (LCDoc × Rat)) :
    (dws = [] →
      (RAGPipeline.buildResponse q a dws).metrics.average_relevance = 0) ∧
    (dws ≠ [] →
      (RAGPipeline.buildResponse q a dws).metrics.average_relevance =
        ((RAGPipeline.buildResponse q a dws).sources.map
            SourceInfo.relevance_score).sum /
          ((RAGPipeline.buildResponse q a dws).sources.length : Rat)) := by
  constructor
  · intro h
    subst h
    rfl
  · intro h
    simp only [RAGPipeline.buildResponse, RAGPipeline.buildSources_map_score,
      RAGPipeline.buildSources_length]
    rw [if_neg (by simp [h])]
    simp

/-- C1 witness: the average over two scores 1 and 1/2 matches the mean of
the sources' stored scores, and the empty retrieval yields 0. -/
theorem C1_average_relevance_witness :
    ((RAGPipeline.buildResponse "q" "a" []).metrics.average_relevance = 0) ∧
    ((RAGPipeline.buildResponse "q" "a"
        [(docA, 1), (docB, 1/2)]).metrics.average_relevance =
      ((RAGPipeline.buildResponse "q" "a"
          [(docA, 1), (docB, 1/2)]).sources.map SourceInfo.relevance_score).sum /
        ((RAGPipeline.buildResponse "q" "a"
            [(docA, 1), (docB, 1/2)]).sources.length : Rat)) :=
  ⟨(C1_average_relevance "q" "a" []).1 rfl,
   (C1_average_relevance "q" "a" [(docA, 1), (docB, 1/2)]).2 (by simp)⟩

/-- C2 counterexample: the `/query` caller supplies `top_k = 1`, yet against
a store holding two chunks the response reports 2 retrieved chunks — the
pipeline hard-codes `k = 10` and never reads `request.top_k`, so the number
of retrieved chunks is not bounded by the caller's `k`. -/
theorem C2_counterexample :
    req1.top_k = some 1 ∧
    (Api.queryDocuments searchStub genAnswerStub req1).metrics.retrieved_chunks = 2 ∧
    ¬((Api.queryDocuments searchStub genAnswerStub req1).metrics.retrieved_chunks ≤ 1) :=
  ⟨rfl, rfl, by decide⟩

/-- C2 (amended): the HTTP query request's `top_k` defaults to 10 when not
supplied, but the pipeline ignores it: retrieval always uses `k = 10`, so
(for a store returning at most `k` results) the number of retrieved chunks
is at most 10 — not at most the caller's supplied `k`. -/
theorem C2_top_k_ignored (search : String → Nat → List (LCDoc × Rat))
    (gen : String → String) (req : Api.QueryRequest)
    (hsearch : ∀ s k, (search s k).length ≤ k) :
    ({ question := req.question } : Api.QueryRequest).top_k = some 10 ∧
    (Api.queryDocuments search gen req).metrics.retrieved_chunks ≤ 10 := by
  refine ⟨rfl, ?_⟩
  show ((search req.question 10).map Prod.fst).length ≤ 10
  rw [List.length_map]
  exact hsearch req.question 10

/-- C2 witness: instantiating the amended claim at the two-chunk stub store
and the concrete request. -/
theorem C2_top_k_ignored_witness :
    ({ question := req1.question } : Api.QueryRequest).top_k = some 10 ∧
    (Api.queryDocuments searchStub genAnswerStub req1).metrics.retrieved_chunks ≤ 10 :=
  C2_top_k_ignored searchStub genAnswerStub req1
    (fun s k => by simp [searchStub, List.length_take])

/-- C3: `ChunkingStrategy.__init__` drops its `chunk_overlap` argument — the
constructed `HierarchicalChunker` configuration is identical for every
overlap value (in particular for the documented default 128 and for 0), so
no trailing-token overlap between consecutive chunks can result from it,
contradicting both the claim and the constructor's own docstring. -/
theorem C3_chunk_overlap_dropped :
    ChunkingStrategy.init 512 128 = ChunkingStrategy.init 512 0 ∧
    ∀ chunk_size o o' : Nat,
      ChunkingStrategy.init chunk_size o = ChunkingStrategy.init chunk_size o' :=
  ⟨rfl, fun _ _ _ => rfl⟩

/-- C4 counterexample: with a parser failing exactly on `bad.bin`,
processing the batch `[a.pdf, bad.bin, c.pdf]` propagates the `ParseError`
and returns no documents at all — `a.pdf`'s result is discarded and
`c.pdf` is never processed, so the other files are not "still processed". -/
theorem C4_counterexample :
    DocumentProcessor.process_documents parseStub ["a.pdf", "bad.bin", "c.pdf"] =
      Except.error "ParseError: bad.bin" := rfl

/-- C4 (amended): `process_documents` has no per-file error handling — a
parse failure on any file aborts the whole batch: the exception propagates,
no documents are returned, and the files after the failing one are never
processed (the result is the same for every tail `post`). -/
theorem C4_parse_error_aborts_batch {Doc : Type} (parse : String → Except String Doc)
    (pre : List String) (f : String) (post : List String) (e : String)
    (hpre : ∀ p ∈ pre, (parse p).isOk = true)
    (hf : parse f = Except.error e) :
    DocumentProcessor.process_documents parse (pre ++ f :: post) =
      Except.error e := by
  induction pre with
  | nil =>
    simp [DocumentProcessor.process_documents, hf]
  | cons p pre ih =>
    have hp : (parse p).isOk = true := hpre p (List.mem_cons_self _ _)
    obtain ⟨d, hd⟩ : ∃ d, parse p = Except.ok d := by
      cases hparse : parse p with
      | error e' => rw [hparse] at hp; cases hp
      | ok d => exact ⟨d, rfl⟩
    have ih' := ih (fun r hr => hpre r (List.mem_cons_of_mem _ hr))
    simp [DocumentProcessor.process_documents, hd, ih']

/-- C4 witness: the amended claim applied to the concrete failing batch
with two files after the failing one. -/
theorem C4_parse_error_aborts_batch_witness :
    DocumentProcessor.process_documents parseStub
        ["a.pdf", "bad.bin", "c.pdf", "d.pdf"] =
      Except.error "ParseError: bad.bin" :=
  C4_parse_error_aborts_batch parseStub ["a.pdf"] "bad.bin" ["c.pdf", "d.pdf"]
    "ParseError: bad.bin" (by decide) rfl

/-- C5 counterexample: for a document with no extractable text the chunker
yields no chunks, and `chunk_document` returns normally with the empty list
(`Except.ok []`) — it does not fail: its body contains no `raise`, and no
`ChunkingError` exists anywhere in the code. -/
theorem C5_counterexample :
    ChunkingStrategy.chunk_document [] = Except.ok [] := rfl

/-- C5 (amended): for every input document with no extractable text at all
(the chunker yields zero chunks), `chunk_document` returns normally with an
empty chunk list rather than failing — no `ChunkingError` is raised. -/
theorem C5_no_text_returns_empty (chunkerOutput : List ChunkingStrategy.RawChunk)
    (h : chunkerOutput = []) :
    (ChunkingStrategy.chunk_document chunkerOutput).isOk = true ∧
    ChunkingStrategy.chunk_document chunkerOutput = Except.ok [] := by
  subst h
  exact ⟨rfl, rfl⟩

/-- C5 witness: the amended claim evaluated at the empty chunker output. -/
theorem C5_no_text_returns_empty_witness :
    (ChunkingStrategy.chunk_document []).isOk = true ∧
    ChunkingStrategy.chunk_document [] = Except.ok [] :=
  C5_no_text_returns_empty [] rfl

/-- C6 counterexample: with `file_paths` omitted and a docs folder holding
only unsupported files, discovery yields nothing and `ingest_documents`
prints a message and returns normally — it does not raise; no
`NoDocumentsFoundError` exists anywhere in the code. -/
theorem C6_counterexample :
    DoclingRAGSystem.resolveIngestFiles none true ["notes.txt", "README"] =
      Except.ok DoclingRAGSystem.IngestOutcome.noDocumentsFound := by
  have h1 : DoclingRAGSystem.discoverFiles ["notes.txt", "README"] = [] := by decide
  simp [DoclingRAGSystem.resolveIngestFiles, h1]

/-- C6 (amended): when ingest is called without file paths and auto-discovery
over the allow-list of extensions yields no files, `ingest_documents` prints
an error message and returns early, normally — no `NoDocumentsFoundError`
(or any exception) is raised. -/
theorem C6_no_discovery_returns_normally (listing : List String)
    (h : DoclingRAGSystem.discoverFiles listing = []) :
    DoclingRAGSystem.resolveIngestFiles none true listing =
      Except.ok DoclingRAGSystem.IngestOutcome.noDocumentsFound ∧
    (DoclingRAGSystem.resolveIngestFiles none true listing).isOk = true := by
  have h1 : DoclingRAGSystem.resolveIngestFiles none true listing =
      Except.ok DoclingRAGSystem.IngestOutcome.noDocumentsFound := by
    simp [DoclingRAGSystem.resolveIngestFiles, h]
  exact ⟨h1, by rw [h1]; rfl⟩

/-- C6 witness: the amended claim evaluated at a folder listing holding only
unsupported files. -/
theorem C6_no_discovery_returns_normally_witness :
    DoclingRAGSystem.resolveIngestFiles none true ["notes.txt", "README"] =
      Except.ok DoclingRAGSystem.IngestOutcome.noDocumentsFound ∧
    (DoclingRAGSystem.resolveIngestFiles none true ["notes.txt", "README"]).isOk = true :=
  C6_no_discovery_returns_normally ["notes.txt", "README"] (by decide)

/-- C7: in the assembled response every source's preview text equals the
full chunk text when that text is at most 300 characters, and equals the
300-character truncation followed by an ellipsis when longer; the answer
text is passed through untruncated. -/
theorem C7_source_preview (q a : String) (dws : List (LCDoc × Rat))
    (src : SourceInfo)
    (hsrc : src ∈ (RAGPipeline.buildResponse q a dws).sources) :
    (RAGPipeline.buildResponse q a dws).answer = a ∧
    ∃ dw ∈ dws,
      src.relevance_score = dw.2 ∧
      (dw.1.page_content.length ≤ 300 → src.text = dw.1.page_content) ∧
      (300 < dw.1.page_content.length →
        src.text = dw.1.page_content.take 300 ++ "...") := by
  refine ⟨rfl, ?_⟩
  have hsrc' : src ∈ RAGPipeline.buildSources 1 dws := hsrc
  obtain ⟨dw, hdw, j, hj⟩ := RAGPipeline.mem_buildSources hsrc'
  subst hj
  refine ⟨dw, hdw, rfl, ?_, ?_⟩
  · intro hle
    show (if dw.1.page_content.length > 300 then
        dw.1.page_content.take 300 ++ "..." else dw.1.page_content) =
      dw.1.page_content
    rw [if_neg (by omega)]
  · intro hgt
    show (if dw.1.page_content.length > 300 then
        dw.1.page_content.take 300 ++ "..." else dw.1.page_content) =
      dw.1.page_content.take 300 ++ "..."
    rw [if_pos (by omega)]

/-- C7 witness: the preview contract evaluated on a single retrieved chunk
of 350 characters. -/
theorem C7_source_preview_witness :
    (RAGPipeline.buildResponse "q" "a" [(docLong, 1)]).answer = "a" ∧
    ∃ dw ∈ [(docLong, (1 : Rat))],
      (RAGPipeline.mkSourceInfo 1 docLong 1).relevance_score = dw.2 ∧
      (dw.1.page_content.length ≤ 300 →
        (RAGPipeline.mkSourceInfo 1 docLong 1).text = dw.1.page_content) ∧
      (300 < dw.1.page_content.length →
        (RAGPipeline.mkSourceInfo 1 docLong 1).text =
          dw.1.page_content.take 300 ++ "...") :=
  C7_source_preview "q" "a" [(docLong, 1)] (RAGPipeline.mkSourceInfo 1 docLong 1)
    (List.mem_cons_self _ _)

/-- C8: the context string supplied to the generation step is the
concatenation of the retrieved chunk texts in ranked order, with consecutive
texts separated by a blank line, and with no deduplication — a repeated
chunk is concatenated again. -/
theorem C8_format_docs :
    (RAGPipeline.formatDocs [] = "") ∧
    (∀ d : LCDoc, RAGPipeline.formatDocs [d] = d.page_content) ∧
    (∀ (d : LCDoc) (ds : List LCDoc), ds ≠ [] →
      RAGPipeline.formatDocs (d :: ds) =
        d.page_content ++ "\n\n" ++ RAGPipeline.formatDocs ds) := by
  refine ⟨rfl, fun d => rfl, fun d ds hds => ?_⟩
  match ds with
  | [] => exact absurd rfl hds
  | e :: es =>
    show String.intercalate.go (d.page_content ++ "\n\n" ++ e.page_content)
        "\n\n" (es.map LCDoc.page_content) = _
    exact RAGPipeline.intercalate_go_append (d.page_content ++ "\n\n")
      e.page_content "\n\n" (es.map LCDoc.page_content)

/-- C8 witness: a duplicated chunk is kept — the context for `[docA, docA]`
repeats `docA`'s text around a blank-line separator. -/
theorem C8_format_docs_witness :
    RAGPipeline.formatDocs [docA, docA] =
      docA.page_content ++ "\n\n" ++ RAGPipeline.formatDocs [docA] :=
  C8_format_docs.2.2 docA [docA] (List.cons_ne_nil _ _)

/-- C9 counterexample: calling `create_vectorstore` while a handle is
already open (`some [docA]`) performs the build anyway and returns normally
with the freshly built collection — no `IndexAlreadyExistsError` is raised;
no such error exists anywhere in the code. -/
theorem C9_counterexample :
    (VectorStore.create_vectorstore id (some [docA]) [chunkA]).isOk = true ∧
    VectorStore.create_vectorstore id (some [docA]) [chunkA] =
      Except.ok [LCDoc.mk chunkA.text chunkA.metadata] :=
  ⟨rfl, rfl⟩

/-- C9 (amended): `create_vectorstore` performs the build unconditionally —
it never inspects the current handle, returns normally even when one is
already open (overwriting it), and behaves identically whether or not a
handle was open; no `IndexAlreadyExistsError` is raised. -/
theorem C9_build_ignores_open_handle (filterMeta : List LCDoc → List LCDoc)
    (handle : List LCDoc) (chunks : List ChunkData) :
    (VectorStore.create_vectorstore filterMeta (some handle) chunks).isOk = true ∧
    VectorStore.create_vectorstore filterMeta (some handle) chunks =
      VectorStore.create_vectorstore filterMeta none chunks :=
  ⟨rfl, rfl⟩

/-- C10: the `/query` endpoint returns exactly the first 5 of the pipeline's
sources (a rank-order prefix, hence at most 5 entries) while the metrics —
including `retrieved_chunks` — are passed through unchanged. -/
theorem C10_api_sources_top5 (search : String → Nat → List (LCDoc × Rat))
    (gen : String → String) (req : Api.QueryRequest) :
    (Api.queryDocuments search gen req).sources =
      (RAGPipeline.query search gen req.question).sources.take 5 ∧
    (Api.queryDocuments search gen req).sources.length ≤ 5 ∧
    (Api.queryDocuments search gen req).metrics =
      (RAGPipeline.query search gen req.question).metrics := by
  refine ⟨rfl, ?_, rfl⟩
  show ((RAGPipeline.query search gen req.question).sources.take 5).length ≤ 5
  simp [List.length_take]
